import Mathlib

/-!
Verification of the Radix UI Checkbox primitive and its context factory.

Shallow embedding of:
- `src/packages/react/checkbox/src/Checkbox.tsx` (Checkbox, CheckboxIndicator, BubbleInput)
- `src/unnamed/part_000` (`createContext` factory)

JS conventions used throughout the embedding:
- the TS type `boolean | 'indeterminate'` becomes the inductive `CheckedState`
  (`false` ↦ `unchecked`, `true` ↦ `checked`, `'indeterminate'` ↦ `indeterminate`);
- a JS value that may be `undefined` becomes `Option`;
- a JS value that may be `undefined` or `null` becomes `Option (Option _)`
  (`none` ↦ `undefined`, `some none` ↦ `null`);
- the imperative effect body of `BubbleInput` becomes a pure function producing the
  list of DOM actions it performs, in order.
-/

namespace Radix

/-- `type CheckedState = boolean | 'indeterminate'` (Checkbox.tsx line 21). -/
inductive CheckedState where
  | unchecked
  | checked
  | indeterminate
deriving DecidableEq, Repr

/-- The updater passed to `setChecked` in the Checkbox `onClick` handler
(Checkbox.tsx line 86): `(prevChecked) => (prevChecked === 'indeterminate' ? true : !prevChecked)`.
The previous value read from the controllable state may be `undefined` (no prop and no
default prop); JS `!undefined` evaluates to `true`. -/
def checkboxNextChecked : Option CheckedState → CheckedState
  | some CheckedState.indeterminate => CheckedState.checked
  | some CheckedState.checked => CheckedState.unchecked
  | some CheckedState.unchecked => CheckedState.checked
  | none => CheckedState.checked

/-- The user-activation transition on a defined `CheckedState`: the same updater
restricted to the three enumerated states. -/
def toggleChecked (s : CheckedState) : CheckedState :=
  checkboxNextChecked (some s)

/-- `getState` (Checkbox.tsx lines 188-190):
`checked === 'indeterminate' ? 'indeterminate' : checked ? 'checked' : 'unchecked'`. -/
def getState : CheckedState → String
  | CheckedState.indeterminate => "indeterminate"
  | CheckedState.checked => "checked"
  | CheckedState.unchecked => "unchecked"

/-- Iterated user activation: `activateN n s` is the state after `n` activations from `s`. -/
def activateN : Nat → CheckedState → CheckedState
  | 0, s => s
  | n + 1, s => activateN n (toggleChecked s)

/-! ## Native Bridge (BubbleInput) -/

/-- The platform property descriptor for `HTMLInputElement.prototype.checked`
(`Object.getOwnPropertyDescriptor(inputProto, 'checked') as PropertyDescriptor`,
Checkbox.tsx line 176). Per the DOM typings, its `set` member is
`((v: any) => void) | undefined`; we only track its presence. -/
structure PropertyDescriptor where
  set : Option Unit
deriving DecidableEq, Repr

/-- The hidden native input node owned by the bridge: its `checked` boolean and its
`indeterminate` flag. -/
structure NativeMirror where
  checked : Bool
  indeterminate : Bool
deriving DecidableEq, Repr

/-- One imperative step performed by the `BubbleInput` effect on the native node. -/
inductive BridgeAction where
  | setIndeterminateFlag (b : Bool)
  | setCheckedProp (b : Bool)
  | dispatchEvent
deriving DecidableEq, Repr

/-- `isIndeterminate ? false : checked` (Checkbox.tsx line 180): the boolean written
through the platform `checked` setter. -/
def checkedProjection (c : CheckedState) : Bool :=
  if c = CheckedState.indeterminate then false else c = CheckedState.checked

/-- The body of the `React.useEffect` in `BubbleInput` (Checkbox.tsx lines 171-183),
as the list of DOM actions it performs. `prev` is `prevChecked` (the previous render's
`checked`), `c` is the current `checked`. The guard is
`if (prevChecked !== checked && setChecked)`; when it fails nothing happens. -/
def bubbleEffect (d : PropertyDescriptor) (prev c : CheckedState) : List BridgeAction :=
  if prev ≠ c ∧ d.set.isSome = true then
    [BridgeAction.setIndeterminateFlag (c = CheckedState.indeterminate),
     BridgeAction.setCheckedProp (checkedProjection c),
     BridgeAction.dispatchEvent]
  else []

/-- Apply one bridge action to the native node (dispatching an event does not change
the node's fields). -/
def applyAction (m : NativeMirror) : BridgeAction → NativeMirror
  | BridgeAction.setIndeterminateFlag b => { m with indeterminate := b }
  | BridgeAction.setCheckedProp b => { m with checked := b }
  | BridgeAction.dispatchEvent => m

/-- Apply a list of bridge actions left to right. -/
def applyActions (m : NativeMirror) (l : List BridgeAction) : NativeMirror :=
  l.foldl applyAction m

/-- Number of native events dispatched by a list of bridge actions. -/
def countDispatches : List BridgeAction → Nat
  | [] => 0
  | BridgeAction.dispatchEvent :: rest => countDispatches rest + 1
  | BridgeAction.setIndeterminateFlag _ :: rest => countDispatches rest
  | BridgeAction.setCheckedProp _ :: rest => countDispatches rest

/-- Modelled from the spec: `usePrevious` (package `react-use-previous`, not under
`src/`) is the `PreviousValue` one-slot memory of the previous render's `CheckedState`.
`runBubble d prev renders` threads that memory through a sequence of renders, each
render executing the `BubbleInput` effect, and concatenates the actions performed.
On mount the memory holds the initial `checked`, so `prev` starts at the first value
seen. -/
def runBubble (d : PropertyDescriptor) : CheckedState → List CheckedState → List BridgeAction
  | _, [] => []
  | prev, c :: rest => bubbleEffect d prev c ++ runBubble d c rest

/-- Number of identity-distinct transitions in a render sequence starting from `prev`. -/
def countTransitions : CheckedState → List CheckedState → Nat
  | _, [] => 0
  | prev, c :: rest => (if prev ≠ c then 1 else 0) + countTransitions c rest

/-! ## Click propagation coordination -/

/-- The observable propagation status of a DOM click event
(`event.isPropagationStopped()` / `event.stopPropagation()`). -/
structure JsEvent where
  propagationStopped : Bool
deriving DecidableEq, Repr

/-- `event.stopPropagation()`. -/
def stopPropagation (e : JsEvent) : JsEvent :=
  { e with propagationStopped := true }

/-- Result of one click on the visible control. -/
structure ClickResult where
  event : JsEvent
  hasConsumerStoppedPropagation : Bool
  nextChecked : CheckedState
deriving Repr

/-- The visible control's `onClick` (Checkbox.tsx lines 85-90), with
`composeEventHandlers` modelled from the spec: `composeEventHandlers` (package
`primitive`, not under `src/`) runs the consumer's `props.onClick` on the event first
and the bridge's own handler afterwards. The bridge's handler then, in order:
computes the next state with `checkboxNextChecked`, records
`event.isPropagationStopped()` into `hasConsumerStoppedPropagationRef`, and calls
`event.stopPropagation()`. A fresh click event has propagation not yet stopped. -/
def checkboxOnClick (consumerOnClick : JsEvent → JsEvent) (prevChecked : Option CheckedState) :
    ClickResult :=
  let e0 : JsEvent := { propagationStopped := false }
  let e1 := consumerOnClick e0
  let next := checkboxNextChecked prevChecked
  let flag := e1.propagationStopped
  let e2 := stopPropagation e1
  { event := e2, hasConsumerStoppedPropagation := flag, nextChecked := next }

/-- The hidden input's `onClickCapture` (Checkbox.tsx lines 107-109):
`if (hasConsumerStoppedPropagationRef.current) event.stopPropagation()`. -/
def bubbleInputOnClickCapture (hasConsumerStoppedPropagation : Bool) (e : JsEvent) : JsEvent :=
  if hasConsumerStoppedPropagation then stopPropagation e else e

/-! ## Context factory (`src/unnamed/part_000`) -/

/-- A JS value of type `ContextValueType | undefined` where `ContextValueType extends
object | null`: `none` is `undefined`, `some none` is `null`, `some (some v)` a value. -/
def JsCtx (V : Type) : Type := Option (Option V)

/-- The state of one `createContext` factory instance (`src/unnamed/part_000`
lines 3-7): the root component's name and the construction-time `defaultContext`
(which is also the `React.createContext` default). `none` means the `defaultContext`
argument was not supplied (`undefined`). -/
structure ContextFactory (V : Type) where
  rootComponentName : String
  defaultContext : JsCtx V

/-- The error message thrown by the accessor
(`` `${consumerName}` must be used within `${rootComponentName}` ``,
`src/unnamed/part_000` line 26). -/
def missingProviderMessage (consumerName rootComponentName : String) : String :=
  "`" ++ consumerName ++ ("` must be used within `" ++ (rootComponentName ++ "`"))

/-- `React.useContext(Context)`: the nearest enclosing Provider's value when one
exists, else the `React.createContext` default. The Provider (`src/unnamed/part_000`
lines 9-18) always broadcasts the memoized `providerProps` object, an actual value. -/
def reactReadContext (f : ContextFactory V) (enclosingProvider : Option V) : JsCtx V :=
  match enclosingProvider with
  | some v => some (some v)
  | none => f.defaultContext

/-- The accessor `useContext(consumerName)` (`src/unnamed/part_000` lines 20-31):
read the context; if it is `undefined` then either throw (no `defaultContext`
configured) or return the `defaultContext`; otherwise return the read value. -/
def useContextAccessor (f : ContextFactory V) (consumerName : String)
    (enclosingProvider : Option V) : Except String (Option V) :=
  let context := reactReadContext f enclosingProvider
  match context with
  | none =>
    match f.defaultContext with
    | none => Except.error (missingProviderMessage consumerName f.rootComponentName)
    | some d => Except.ok d
  | some v => Except.ok v

/-! ## CheckboxIndicator -/

/-- The `present` prop of the indicator's `Presence` gate (Checkbox.tsx line 144):
`forceMount || context.state === 'indeterminate' || context.state === true`.
`forceMount?: true` is truthy exactly when supplied. -/
def indicatorPresent (forceMount : Bool) (state : CheckedState) : Bool :=
  forceMount || state = CheckedState.indeterminate || state = CheckedState.checked

/-! ## Controllable state unit -/

/-- Modelled from the spec: `useControllableState` (package
`react-use-controllable-state`, not under `src/`) — the Controllable State Unit.
`prop` is the externally supplied value (`none` when unset, making the instance
uncontrolled) and `internalValue` the internal fallback state, seeded from
`defaultProp`. -/
structure ControllableState (T : Type) where
  prop : Option T
  internalValue : Option T
deriving DecidableEq, Repr

/-- Modelled from the spec: the current value of the Controllable State Unit —
in controlled mode always the external value, in uncontrolled mode the internal
state. -/
def csRead (s : ControllableState T) : Option T :=
  match s.prop with
  | some v => some v
  | none => s.internalValue

/-- Modelled from the spec: `setValue` with a functional updater. In controlled
mode it never mutates local state and only produces the notification `onChange(next)`;
in uncontrolled mode it mutates the internal state and also produces the
notification. Returns the new unit state and the list of notified values. -/
def csSetValue (s : ControllableState T) (updater : Option T → T) :
    ControllableState T × List T :=
  match s.prop with
  | some p => (s, [updater (some p)])
  | none =>
    let next := updater s.internalValue
    ({ s with internalValue := some next }, [next])

/-- `const [checked = false, setChecked] = useControllableState(...)`
(Checkbox.tsx line 64): the destructuring default turns an `undefined` read into
`false`, that is `unchecked`. -/
def checkboxRead (s : ControllableState CheckedState) : CheckedState :=
  (csRead s).getD CheckedState.unchecked

/-! ## Helper lemmas -/

theorem toggleChecked_ne_indeterminate (s : CheckedState) :
    toggleChecked s ≠ CheckedState.indeterminate := by
  cases s <;> simp [toggleChecked, checkboxNextChecked]

theorem activateN_ne_indeterminate (n : Nat) (s : CheckedState)
    (hs : s ≠ CheckedState.indeterminate) : activateN n s ≠ CheckedState.indeterminate := by
  induction n generalizing s with
  | zero => exact hs
  | succ n ih => exact ih (toggleChecked s) (toggleChecked_ne_indeterminate s)

theorem activateN_parity (n : Nat) :
    activateN n CheckedState.unchecked
        = (if n % 2 = 0 then CheckedState.unchecked else CheckedState.checked)
    ∧ activateN n CheckedState.checked
        = (if n % 2 = 0 then CheckedState.checked else CheckedState.unchecked) := by
  induction n with
  | zero => simp [activateN]
  | succ n ih =>
    rcases Nat.mod_two_eq_zero_or_one n with h | h
    · have h2 : (n + 1) % 2 = 1 := by omega
      constructor
      · show activateN n (toggleChecked CheckedState.unchecked) = _
        simp [toggleChecked, checkboxNextChecked, ih.2, h, h2]
      · show activateN n (toggleChecked CheckedState.checked) = _
        simp [toggleChecked, checkboxNextChecked, ih.1, h, h2]
    · have h2 : (n + 1) % 2 = 0 := by omega
      constructor
      · show activateN n (toggleChecked CheckedState.unchecked) = _
        simp [toggleChecked, checkboxNextChecked, ih.2, h, h2]
      · show activateN n (toggleChecked CheckedState.checked) = _
        simp [toggleChecked, checkboxNextChecked, ih.1, h, h2]

theorem countDispatches_append (l1 l2 : List BridgeAction) :
    countDispatches (l1 ++ l2) = countDispatches l1 + countDispatches l2 := by
  induction l1 with
  | nil => simp [countDispatches]
  | cons a l ih =>
    cases a <;> simp [countDispatches, ih]
    omega

theorem bubbleEffect_of_eq (d : PropertyDescriptor) (prev c : CheckedState) (h : prev = c) :
    bubbleEffect d prev c = [] := by
  simp [bubbleEffect, h]

theorem countDispatches_bubbleEffect (d : PropertyDescriptor) (hd : d.set.isSome = true)
    (prev c : CheckedState) :
    countDispatches (bubbleEffect d prev c) = if prev ≠ c then 1 else 0 := by
  by_cases h : prev = c
  · simp [bubbleEffect, h, countDispatches]
  · simp [bubbleEffect, h, hd, countDispatches]

theorem countDispatches_runBubble (d : PropertyDescriptor) (hd : d.set.isSome = true)
    (prev : CheckedState) (renders : List CheckedState) :
    countDispatches (runBubble d prev renders) = countTransitions prev renders := by
  induction renders generalizing prev with
  | nil => simp [runBubble, countTransitions, countDispatches]
  | cons c rest ih =>
    simp [runBubble, countTransitions, countDispatches_append,
      countDispatches_bubbleEffect d hd, ih]

/-! ## Claim theorems -/

/-- C1: across any sequence of renders (with the platform `checked` setter present),
the Native Bridge dispatches an event on the hidden native input iff the
`CheckedState` for that render differs from the previous render's; an unchanged
render performs no action at all (no event, no DOM mutation); a changed render
dispatches exactly one event; and over any render sequence the number of dispatched
events equals the number of distinct transitions, independent of interleaved
re-renders. -/
theorem bridge_event_iff_transition (d : PropertyDescriptor) (hd : d.set.isSome = true) :
    (∀ prev c : CheckedState, 0 < countDispatches (bubbleEffect d prev c) ↔ prev ≠ c)
    ∧ (∀ prev c : CheckedState, prev = c → bubbleEffect d prev c = [])
    ∧ (∀ prev c : CheckedState, prev ≠ c → countDispatches (bubbleEffect d prev c) = 1)
    ∧ (∀ (prev : CheckedState) (renders : List CheckedState),
        countDispatches (runBubble d prev renders) = countTransitions prev renders) := by
  refine ⟨?_, ?_, ?_, ?_⟩
  · intro prev c
    rw [countDispatches_bubbleEffect d hd]
    by_cases h : prev = c <;> simp [h]
  · intro prev c h
    exact bubbleEffect_of_eq d prev c h
  · intro prev c h
    rw [countDispatches_bubbleEffect d hd]
    simp [h]
  · intro prev renders
    exact countDispatches_runBubble d hd prev renders

theorem bridge_event_iff_transition_witness :
    (⟨some ()⟩ : PropertyDescriptor).set.isSome = true
    ∧ 0 < countDispatches
        (bubbleEffect ⟨some ()⟩ CheckedState.unchecked CheckedState.checked)
    ∧ countDispatches (runBubble ⟨some ()⟩ CheckedState.unchecked
        [CheckedState.unchecked, CheckedState.checked, CheckedState.checked,
         CheckedState.indeterminate])
      = countTransitions CheckedState.unchecked
        [CheckedState.unchecked, CheckedState.checked, CheckedState.checked,
         CheckedState.indeterminate] :=
  ⟨rfl,
   ((bridge_event_iff_transition ⟨some ()⟩ rfl).1 CheckedState.unchecked
      CheckedState.checked).mpr (by decide),
   (bridge_event_iff_transition ⟨some ()⟩ rfl).2.2.2 CheckedState.unchecked _⟩

/-- C2: the user-activation transition maps Indeterminate to Checked, Checked to
Unchecked and Unchecked to Checked; a sequence of activations from Unchecked
strictly alternates Unchecked, Checked, Unchecked, ...; and no sequence of one or
more activations ever ends in Indeterminate. -/
theorem toggle_transition_spec :
    (toggleChecked CheckedState.indeterminate = CheckedState.checked
      ∧ toggleChecked CheckedState.checked = CheckedState.unchecked
      ∧ toggleChecked CheckedState.unchecked = CheckedState.checked)
    ∧ (∀ n : Nat, activateN n CheckedState.unchecked
        = (if n % 2 = 0 then CheckedState.unchecked else CheckedState.checked))
    ∧ (∀ (n : Nat) (s : CheckedState), activateN (n + 1) s ≠ CheckedState.indeterminate) := by
  refine ⟨by decide, fun n => (activateN_parity n).1, fun n s => ?_⟩
  show activateN n (toggleChecked s) ≠ CheckedState.indeterminate
  exact activateN_ne_indeterminate n (toggleChecked s) (toggleChecked_ne_indeterminate s)

theorem toggle_transition_spec_witness :
    activateN 4 CheckedState.unchecked = CheckedState.unchecked :=
  (toggle_transition_spec.2.1 4).trans (by decide)

/-- C3: on a `CheckedState` transition (setter present), the bridge leaves the native
node with its indeterminate flag true exactly when the new state is Indeterminate,
and its checked boolean false when the new state is Indeterminate, true when Checked,
false when Unchecked — for any starting node state. -/
theorem bridge_mirror_projection (d : PropertyDescriptor) (hd : d.set.isSome = true)
    (prev c : CheckedState) (hne : prev ≠ c) (m : NativeMirror) :
    ((applyActions m (bubbleEffect d prev c)).indeterminate = true
        ↔ c = CheckedState.indeterminate)
    ∧ (c = CheckedState.indeterminate → (applyActions m (bubbleEffect d prev c)).checked = false)
    ∧ (c = CheckedState.checked → (applyActions m (bubbleEffect d prev c)).checked = true)
    ∧ (c = CheckedState.unchecked → (applyActions m (bubbleEffect d prev c)).checked = false) := by
  have hg : (prev ≠ c ∧ d.set.isSome = true) := ⟨hne, hd⟩
  simp only [bubbleEffect, if_pos hg, applyActions, List.foldl, applyAction]
  cases c <;> simp [checkedProjection]

theorem bridge_mirror_projection_witness :
    ((applyActions ⟨false, false⟩
        (bubbleEffect ⟨some ()⟩ CheckedState.unchecked CheckedState.indeterminate)).indeterminate
      = true)
    ∧ (applyActions ⟨false, false⟩
        (bubbleEffect ⟨some ()⟩ CheckedState.unchecked CheckedState.indeterminate)).checked
      = false :=
  ⟨((bridge_mirror_projection ⟨some ()⟩ rfl CheckedState.unchecked CheckedState.indeterminate
      (by decide) ⟨false, false⟩).1).mpr rfl,
   (bridge_mirror_projection ⟨some ()⟩ rfl CheckedState.unchecked CheckedState.indeterminate
      (by decide) ⟨false, false⟩).2.1 rfl⟩

/-- C4: within one transition-causing effect run, any dispatched event comes only
after both native-mirror properties hold their final values: at the index of the
dispatch action, applying the preceding actions to any starting node already yields
the fully updated node, and no action follows the dispatch. -/
theorem bridge_dispatch_after_mutation (d : PropertyDescriptor) (prev c : CheckedState)
    (m : NativeMirror) (i : Nat)
    (hi : (bubbleEffect d prev c).get? i = some BridgeAction.dispatchEvent) :
    applyActions m ((bubbleEffect d prev c).take i)
      = { checked := checkedProjection c,
          indeterminate := decide (c = CheckedState.indeterminate) }
    ∧ (bubbleEffect d prev c).drop (i + 1) = [] := by
  by_cases hg : (prev ≠ c ∧ d.set.isSome = true)
  · simp only [bubbleEffect, if_pos hg] at hi ⊢
    match i with
    | 0 => simp at hi
    | 1 => simp at hi
    | 2 =>
      refine ⟨?_, rfl⟩
      simp [applyActions, applyAction]
    | n + 3 => simp [List.get?] at hi
  · simp [bubbleEffect, if_neg hg] at hi

theorem bridge_dispatch_after_mutation_witness :
    applyActions ⟨false, false⟩
        ((bubbleEffect ⟨some ()⟩ CheckedState.unchecked CheckedState.checked).take 2)
      = { checked := true, indeterminate := false } :=
  (bridge_dispatch_after_mutation ⟨some ()⟩ CheckedState.unchecked CheckedState.checked
    ⟨false, false⟩ 2 rfl).1

/-- C5: for every activation click, the visible control's handler records exactly
whether the outer consumer handler had already stopped propagation before the
bridge's own handling ran, then unconditionally stops propagation of the visible
control's click event; and the hidden input's click-capture listener stops
propagation of the input's event iff that recorded flag is set (leaving the event
untouched otherwise). -/
theorem click_propagation_spec (consumerOnClick : JsEvent → JsEvent)
    (prevChecked : Option CheckedState) :
    (checkboxOnClick consumerOnClick prevChecked).hasConsumerStoppedPropagation
        = (consumerOnClick { propagationStopped := false }).propagationStopped
    ∧ (checkboxOnClick consumerOnClick prevChecked).event.propagationStopped = true
    ∧ (∀ e : JsEvent,
        (bubbleInputOnClickCapture
            (checkboxOnClick consumerOnClick prevChecked).hasConsumerStoppedPropagation
            e).propagationStopped
          = ((checkboxOnClick consumerOnClick prevChecked).hasConsumerStoppedPropagation
              || e.propagationStopped))
    ∧ (∀ e : JsEvent,
        (checkboxOnClick consumerOnClick prevChecked).hasConsumerStoppedPropagation = false →
          bubbleInputOnClickCapture
            (checkboxOnClick consumerOnClick prevChecked).hasConsumerStoppedPropagation e = e) := by
  refine ⟨rfl, rfl, fun e => ?_, fun e h => ?_⟩
  · cases hb : (checkboxOnClick consumerOnClick prevChecked).hasConsumerStoppedPropagation <;>
      simp [bubbleInputOnClickCapture, stopPropagation, hb]
  · simp [bubbleInputOnClickCapture, h]

theorem click_propagation_spec_witness :
    (checkboxOnClick stopPropagation (some CheckedState.unchecked)).hasConsumerStoppedPropagation
        = true
    ∧ bubbleInputOnClickCapture
        (checkboxOnClick (fun e => e)
          (some CheckedState.unchecked)).hasConsumerStoppedPropagation
        { propagationStopped := false }
      = { propagationStopped := false } :=
  ⟨(click_propagation_spec stopPropagation (some CheckedState.unchecked)).1.trans rfl,
   (click_propagation_spec (fun e => e) (some CheckedState.unchecked)).2.2.2
     { propagationStopped := false } rfl⟩

/-- C6: with no enclosing Provider, a factory built without a default raises an error
whose message contains both the consumer's name and the root component's name, while
a factory built with a default returns that default without raising; with an
enclosing Provider, the accessor returns the broadcast value. -/
theorem context_accessor_spec :
    (∀ (V : Type) (rn cn : String),
      ∃ msg : String,
        useContextAccessor (⟨rn, none⟩ : ContextFactory V) cn none = Except.error msg
        ∧ (∃ p q, msg = p ++ (cn ++ q)) ∧ (∃ p q, msg = p ++ (rn ++ q)))
    ∧ (∀ (V : Type) (rn cn : String) (d : Option V),
        useContextAccessor (⟨rn, some d⟩ : ContextFactory V) cn none = Except.ok d)
    ∧ (∀ (V : Type) (f : ContextFactory V) (cn : String) (v : V),
        useContextAccessor f cn (some v) = Except.ok (some v)) := by
  refine ⟨fun V rn cn => ⟨missingProviderMessage cn rn, rfl, ?_, ?_⟩,
    fun V rn cn d => rfl, fun V f cn v => rfl⟩
  · exact ⟨"`", "` must be used within `" ++ (rn ++ "`"), by
      simp [missingProviderMessage, String.append_assoc]⟩
  · exact ⟨"`" ++ cn ++ "` must be used within `", "`", by
      simp [missingProviderMessage, String.append_assoc]⟩

theorem context_accessor_spec_witness :
    useContextAccessor (⟨"Checkbox", some (some 0)⟩ : ContextFactory Nat)
        "CheckboxIndicator" none
      = Except.ok (some 0) :=
  context_accessor_spec.2.1 Nat "Checkbox" "CheckboxIndicator" (some 0)

/-- C7: the indicator's presence predicate is true iff `forceMount` is set, or the
broadcast state is Checked, or it is Indeterminate; with `forceMount` unset and state
Unchecked the indicator is not present. -/
theorem indicator_presence_spec :
    (∀ (forceMount : Bool) (s : CheckedState),
      indicatorPresent forceMount s = true
        ↔ forceMount = true ∨ s = CheckedState.checked ∨ s = CheckedState.indeterminate)
    ∧ indicatorPresent false CheckedState.unchecked = false := by
  refine ⟨fun fm s => ?_, rfl⟩
  cases fm <;> cases s <;> simp [indicatorPresent]

theorem indicator_presence_spec_witness :
    indicatorPresent false CheckedState.checked = true :=
  (indicator_presence_spec.1 false CheckedState.checked).mpr (Or.inr (Or.inl rfl))

/-- C8: in controlled mode the read value always equals the external value and
`setValue` leaves the unit's state unchanged; concretely, with
`checked = Indeterminate` supplied, one activation produces the notification
`Checked` yet the externally visible read stays `Indeterminate`. -/
theorem controlled_mode_spec :
    (∀ (s : ControllableState CheckedState) (p : CheckedState),
        s.prop = some p → checkboxRead s = p)
    ∧ (∀ (s : ControllableState CheckedState) (u : Option CheckedState → CheckedState),
        s.prop.isSome = true → (csSetValue s u).fst = s)
    ∧ ((csSetValue ⟨some CheckedState.indeterminate, none⟩ checkboxNextChecked).snd
        = [CheckedState.checked]
      ∧ checkboxRead (csSetValue ⟨some CheckedState.indeterminate, none⟩
          checkboxNextChecked).fst = CheckedState.indeterminate) := by
  refine ⟨fun s p hp => ?_, fun s u hu => ?_, rfl, rfl⟩
  · simp [checkboxRead, csRead, hp]
  · match s, hu with
    | ⟨some p, iv⟩, _ => rfl

theorem controlled_mode_spec_witness :
    checkboxRead ⟨some CheckedState.indeterminate, none⟩ = CheckedState.indeterminate
    ∧ (csSetValue ⟨some CheckedState.indeterminate, none⟩ checkboxNextChecked).fst
        = ⟨some CheckedState.indeterminate, none⟩ :=
  ⟨controlled_mode_spec.1 ⟨some CheckedState.indeterminate, none⟩ CheckedState.indeterminate rfl,
   controlled_mode_spec.2.1 ⟨some CheckedState.indeterminate, none⟩ checkboxNextChecked rfl⟩

/-- C9: with an absent platform `checked` setter, the bridge effect performs no
action on any render — no DOM mutation and no event — and, being a total function,
completes without raising. -/
theorem bridge_absent_setter_silent :
    ∀ prev c : CheckedState,
      bubbleEffect ⟨none⟩ prev c = []
      ∧ countDispatches (bubbleEffect ⟨none⟩ prev c) = 0
      ∧ (∀ m : NativeMirror, applyActions m (bubbleEffect ⟨none⟩ prev c) = m) := by
  intro prev c
  have h : bubbleEffect ⟨none⟩ prev c = [] := by
    simp [bubbleEffect]
  exact ⟨h, by rw [h]; rfl, fun m => by rw [h]; rfl⟩

theorem bridge_absent_setter_silent_witness :
    bubbleEffect ⟨none⟩ CheckedState.unchecked CheckedState.checked = [] :=
  (bridge_absent_setter_silent CheckedState.unchecked CheckedState.checked).1

/-- C10: the required-vs-optional policy pivots exactly on the `undefined` sentinel:
a factory whose default is `null` returns `null` from a provider-less accessor call
without raising, and an accessor call errors iff the construction-time default is
`undefined` and there is no enclosing Provider. -/
theorem context_null_default_spec :
    (∀ (V : Type) (rn cn : String),
      useContextAccessor (⟨rn, some none⟩ : ContextFactory V) cn none = Except.ok none)
    ∧ (∀ (V : Type) (rn cn : String) (d : JsCtx V) (enc : Option V),
        (∃ msg, useContextAccessor (⟨rn, d⟩ : ContextFactory V) cn enc = Except.error msg)
          ↔ d = none ∧ enc = none) := by
  refine ⟨fun V rn cn => rfl, fun V rn cn d enc => ?_⟩
  cases enc <;> cases d <;>
    simp [useContextAccessor, reactReadContext]

theorem context_null_default_spec_witness :
    useContextAccessor (⟨"Checkbox", some none⟩ : ContextFactory Nat)
        "CheckboxIndicator" none
      = Except.ok none :=
  context_null_default_spec.1 Nat "Checkbox" "CheckboxIndicator"

end Radix
